import Mathlib

/-!
Verification of the madVR Envy IP-control client library core.

Shallow embedding of the Python sources (`madvr_envy/protocol.py`,
`madvr_envy/state.py`, `madvr_envy/adapter.py`, `madvr_envy/client.py`).
Python strings are modelled as `List Char`, Python `int` as `Int`,
Python `float` values as `ℚ`, Python `dict[str, V]` as association lists
with first-match lookup, and fallible operations as `Option`.
-/

set_option maxHeartbeats 1000000
set_option synthInstance.maxSize 1000

/-- A Python string: a sequence of characters. -/
abbrev Str : Type := List Char

/-- ASCII whitespace, as recognised by Python's `str.strip` and the regex
class `\s` (restricted to the ASCII range: space, tab, LF, CR, VT, FF). -/
def isSpace (c : Char) : Bool :=
  c = ' ' || c = '\t' || c = '\n' || c = '\r' || c = Char.ofNat 11 || c = Char.ofNat 12

/-- Drop trailing whitespace (the right half of Python's `str.strip`). -/
def dropTrailing (s : Str) : Str :=
  (s.reverse.dropWhile isSpace).reverse

/-- Python `str.strip()`: remove leading and trailing whitespace. -/
def pyStrip (s : Str) : Str :=
  dropTrailing (s.dropWhile isSpace)

/-- Split a character list at the first double quote: returns the part before
the quote and the part after it (the quote itself removed), or `none` when no
quote occurs.  Used to model the `"[^"]*"` alternative of `TOKEN_PATTERN`. -/
def splitOnQuote : Str → Option (Str × Str)
  | [] => none
  | c :: rest =>
    if c = '"' then some ([], rest)
    else
      match splitOnQuote rest with
      | none => none
      | some (a, b) => some (c :: a, b)

/-- One scanning pass of `TOKEN_PATTERN = re.compile(r'"[^"]*"|\S+')` with
explicit fuel (any fuel at least the length of the input gives the full token
list).  At each position the regex engine first tries a double-quoted run
(quotes retained in the token) and otherwise takes a maximal non-whitespace
run; whitespace positions are skipped. -/
def tokensGo : Nat → Str → List Str
  | 0, _ => []
  | _ + 1, [] => []
  | fuel + 1, c :: rest =>
    if isSpace c then tokensGo fuel rest
    else if c = '"' then
      match splitOnQuote rest with
      | some (inside, after) => ('"' :: (inside ++ ['"'])) :: tokensGo fuel after
      | none =>
        ('"' :: rest.takeWhile (fun d => !isSpace d)) ::
          tokensGo fuel (rest.dropWhile (fun d => !isSpace d))
    else
      (c :: rest.takeWhile (fun d => !isSpace d)) ::
        tokensGo fuel (rest.dropWhile (fun d => !isSpace d))

/-- `_tokens(line)`: all matches of `TOKEN_PATTERN` in the line. -/
def tokensOf (s : Str) : List Str :=
  tokensGo s.length s

/-- `_unquote(token)`: strip one leading and one trailing double quote when
the token has length at least two and both are present. -/
def unquote : Str → Str
  | '"' :: rest =>
    if rest.getLast? = some '"' then rest.dropLast else '"' :: rest
  | t => t

/-- `" ".join(tokens)`: join with single spaces. -/
def joinSpace : List Str → Str
  | [] => []
  | [t] => t
  | t :: rest => t ++ ' ' :: joinSpace rest

/-- Accumulate the value of a digit run that may contain single underscores
between digits (Python numeric literal grammar). -/
def digitsVal (acc : Nat) : Str → Option Nat
  | [] => some acc
  | '_' :: c :: rest =>
    if c.isDigit then digitsVal (acc * 10 + (c.toNat - 48)) rest else none
  | ['_'] => none
  | c :: rest =>
    if c.isDigit then digitsVal (acc * 10 + (c.toNat - 48)) rest else none

/-- Parse a non-empty underscore-separated digit run to a natural number. -/
def natFromDigits : Str → Option Nat
  | [] => none
  | c :: rest =>
    if c.isDigit then digitsVal (c.toNat - 48) rest else none

/-- Like `natFromDigits` but also counting the digits (underscores excluded);
needed for the value of a fractional part. -/
def digitsValCount (acc : Nat) (k : Nat) : Str → Option (Nat × Nat)
  | [] => some (acc, k)
  | '_' :: c :: rest =>
    if c.isDigit then digitsValCount (acc * 10 + (c.toNat - 48)) (k + 1) rest else none
  | ['_'] => none
  | c :: rest =>
    if c.isDigit then digitsValCount (acc * 10 + (c.toNat - 48)) (k + 1) rest else none

/-- Parse a non-empty digit run returning its value and digit count. -/
def natFromDigitsCount : Str → Option (Nat × Nat)
  | [] => none
  | c :: rest =>
    if c.isDigit then digitsValCount (c.toNat - 48) 1 rest else none

/-- `_to_int(value)` / Python `int(str)`: strip whitespace, optional sign,
then a non-empty digit run (single underscores between digits allowed);
`none` models the caught `ValueError`.  Unicode digits are not modelled (the
protocol is ASCII). -/
def pyInt (s : Str) : Option Int :=
  match pyStrip s with
  | '+' :: rest => (natFromDigits rest).map Int.ofNat
  | '-' :: rest => (natFromDigits rest).map (fun n => -(Int.ofNat n))
  | t => (natFromDigits t).map Int.ofNat

/-- Split at the first `e`/`E` (exponent marker of a float literal). -/
def splitOnExp : Str → Str × Option Str
  | [] => ([], none)
  | c :: rest =>
    if c = 'e' ∨ c = 'E' then ([], some rest)
    else
      match splitOnExp rest with
      | (a, b) => (c :: a, b)

/-- Split at the first `.` (decimal point of a float literal). -/
def splitOnDot : Str → Str × Option Str
  | [] => ([], none)
  | c :: rest =>
    if c = '.' then ([], some rest)
    else
      match splitOnDot rest with
      | (a, b) => (c :: a, b)

/-- Value of the mantissa `digits [. [digits]]` (at least one digit overall). -/
def mantissaVal (m : Str) : Option ℚ :=
  match splitOnDot m with
  | (ip, none) => (natFromDigits ip).map (fun n => (n : ℚ))
  | ([], some []) => none
  | ([], some fp) => (natFromDigitsCount fp).map (fun p => (p.1 : ℚ) / 10 ^ p.2)
  | (ip, some []) => (natFromDigits ip).map (fun n => (n : ℚ))
  | (ip, some fp) =>
    match natFromDigits ip, natFromDigitsCount fp with
    | some n, some p => some ((n : ℚ) + (p.1 : ℚ) / 10 ^ p.2)
    | _, _ => none

/-- Exponent part: optional sign then digits. -/
def expVal : Str → Option Int
  | '+' :: rest => (natFromDigits rest).map Int.ofNat
  | '-' :: rest => (natFromDigits rest).map (fun n => -(Int.ofNat n))
  | t => (natFromDigits t).map Int.ofNat

/-- Python `float(str)` for finite decimal literals: strip whitespace,
optional sign, mantissa with optional fraction, optional decimal exponent.
Values are exact rationals (binary rounding is not modelled, nor are the
`inf`/`nan` spellings); `none` models the raised `ValueError`. -/
def pyFloat (s : Str) : Option ℚ :=
  let t := pyStrip s
  let sb : ℚ × Str :=
    match t with
    | '+' :: r => (1, r)
    | '-' :: r => (-1, r)
    | r => (1, r)
  match splitOnExp sb.2 with
  | (mant, ex) =>
    match mantissaVal mant with
    | none => none
    | some mv =>
      match ex with
      | none => some (sb.1 * mv)
      | some es =>
        match expVal es with
        | none => none
        | some e => some (sb.1 * mv * (10 : ℚ) ^ e)

/-- `OptionScalar = str | int | float | bool`. -/
inductive OptionScalar where
  | str (s : Str)
  | int (i : Int)
  | rat (q : ℚ)
  | bool (b : Bool)
  deriving DecidableEq, Repr

/-- `_parse_option_scalar(option_type, value)`. -/
def parse_option_scalar (option_type value : Str) : OptionScalar :=
  let raw := unquote value
  let normalized_type := option_type.map Char.toUpper
  if normalized_type = "INTEGER".data ∨ normalized_type = "INT".data then
    match pyInt raw with
    | some parsed => .int parsed
    | none => .str raw
  else if normalized_type = "FLOAT".data ∨ normalized_type = "DOUBLE".data then
    match pyFloat raw with
    | some q => .rat q
    | none => .str raw
  else if normalized_type = "BOOLEAN".data ∨ normalized_type = "BOOL".data then
    let upper := raw.map Char.toUpper
    if upper = "YES".data ∨ upper = "TRUE".data ∨ upper = "ON".data then .bool true
    else if upper = "NO".data ∨ upper = "FALSE".data ∨ upper = "OFF".data then .bool false
    else .str raw
  else .str raw

example : tokensOf ("OpenMenu  \"Test Patterns\"".data) =
    ["OpenMenu".data, "\"Test Patterns\"".data] := by decide
example : pyInt "  -42".data = some (-42) := by decide
example : pyInt "1_0".data = some 10 := by decide
example : pyInt "1__0".data = none := by decide
example : (pyFloat "2.35".data).isSome = true := by decide
example : pyFloat "x".data = none := by decide
example : unquote "\"ab\"".data = "ab".data := by decide
example : pyStrip "  a b ".data = "a b".data := by decide

/-- `TemperaturesMessage`. -/
structure TemperaturesMessage where
  gpu : Int
  hdmi_input : Int
  cpu : Int
  mainboard : Int
  extra : List Int
  deriving DecidableEq, Repr

/-- `IncomingSignalInfoMessage`. -/
structure IncomingSignalInfoMessage where
  resolution : Str
  frame_rate : Str
  signal_type : Str
  color_space : Str
  bit_depth : Str
  hdr_mode : Str
  colorimetry : Str
  black_levels : Str
  aspect_ratio : Str
  deriving DecidableEq, Repr

/-- `OutgoingSignalInfoMessage`. -/
structure OutgoingSignalInfoMessage where
  resolution : Str
  frame_rate : Str
  signal_type : Str
  color_space : Str
  bit_depth : Str
  hdr_mode : Str
  colorimetry : Str
  black_levels : Str
  deriving DecidableEq, Repr

/-- `AspectRatioMessage` (decimal ratio kept as an exact rational). -/
structure AspectRatioMessage where
  resolution : Str
  decimal_ratio : ℚ
  integer_ratio : Int
  name : Str
  deriving DecidableEq, Repr

/-- `MaskingRatioMessage`. -/
structure MaskingRatioMessage where
  resolution : Str
  decimal_ratio : ℚ
  integer_ratio : Int
  deriving DecidableEq, Repr

/-- `OptionMessage`. -/
structure OptionMessage where
  option_type : Str
  option_id : Str
  current_value : OptionScalar
  effective_value : OptionScalar
  deriving DecidableEq, Repr

/-- `ChangeOptionMessage`. -/
structure ChangeOptionMessage where
  option_type : Str
  option_id_path : Str
  current_value : OptionScalar
  effective_value : OptionScalar
  deriving DecidableEq, Repr

/-- `InheritOptionMessage`. -/
structure InheritOptionMessage where
  option_type : Str
  option_id_path : Str
  effective_value : OptionScalar
  deriving DecidableEq, Repr

/-- The protocol message sum type: one constructor per `*Message` dataclass
in `protocol.py`. -/
inductive Message where
  | welcome (version : Str)
  | okMsg
  | errorMsg (error : Str)
  | standby
  | powerOff
  | restart
  | reloadSoftware
  | noSignal
  | openMenu (menu : Str)
  | closeMenu
  | keyPress (button : Str)
  | keyHold (button : Str)
  | setAspectRatioMode (mode : Str)
  | activateProfile (profile_group : Str) (profile_index : Int)
  | activeProfile (profile_group : Str) (profile_index : Int)
  | createProfileGroup (group_id : Str) (name : Str)
  | renameProfileGroup (group_id : Str) (name : Str)
  | deleteProfileGroup (group_id : Str)
  | createProfile (profile_group : Str) (profile_index : Int) (name : Str)
  | renameProfile (profile_group : Str) (profile_index : Int) (name : Str)
  | deleteProfile (profile_group : Str) (profile_index : Int)
  | addProfileToPage (profile_id : Str) (page_id : Str)
  | removeProfileFromPage (profile_id : Str) (page_id : Str)
  | incomingSignalInfo (info : IncomingSignalInfoMessage)
  | outgoingSignalInfo (info : OutgoingSignalInfoMessage)
  | aspectRatio (info : AspectRatioMessage)
  | maskingRatio (info : MaskingRatioMessage)
  | temperatures (info : TemperaturesMessage)
  | macAddress (mac : Str)
  | profileGroup (group_id : Str) (name : Str)
  | profileGroupEnd
  | profile (profile_id : Str) (name : Str)
  | profileEnd
  | settingPage (page_id : Str) (name : Str)
  | settingPageEnd
  | configPage (page_id : Str) (name : Str)
  | configPageEnd
  | option (info : OptionMessage)
  | optionEnd
  | changeOption (info : ChangeOptionMessage)
  | inheritOption (info : InheritOptionMessage)
  | resetTemporary
  | upload3DLUTFile (filename : Str)
  | rename3DLUTFile (old_filename : Str) (new_filename : Str)
  | delete3DLUTFile (filename : Str)
  | uploadSettingsFile
  | storeSettings (target : Str) (storage_name : Str)
  | restoreSettings (target : Str)
  | toggle (option : Str)
  | toneMapOn
  | toneMapOff
  | displayChanged
  | refreshLicenseInfo
  | force1080p60Output
  | hotplug
  | firmwareUpdate
  | missingHeartbeat
  | unknown (raw : Str)
  deriving Repr

/-- The literal characters of `"WELCOME to Envy v"`. -/
def welcomeLead : Str := "WELCOME to Envy v".data

/-- `_parse_welcome(line)`: regular expression `^WELCOME to Envy v([^\s]+)$` —
the remainder after the literal must be non-empty and whitespace-free. -/
def parseWelcome (line : Str) : Message :=
  if line.take 17 = welcomeLead then
    let rest := line.drop 17
    if !rest.isEmpty && rest.all (fun c => !isSpace c) then .welcome rest
    else .unknown line
  else .unknown line

/-- `_parse_error(line)`: regular expression `^ERROR\s+"?(.*?)"?$` — at least
one whitespace after `ERROR`, then the text with one optional surrounding
pair of quotes removed. -/
def parseError (line : Str) : Message :=
  if line.take 5 = "ERROR".data then
    let after := line.drop 5
    if (after.takeWhile isSpace).isEmpty then .unknown line
    else
      let body := after.dropWhile isSpace
      let b1 := match body with
        | '"' :: r => r
        | r => r
      let b2 := if b1.getLast? = some '"' then b1.dropLast else b1
      .errorMsg b2
  else .unknown line

/-- `_parse_open_menu(tokens, line)`. -/
def parseOpenMenu (tokens : List Str) (line : Str) : Message :=
  match tokens with
  | [_, t1] => .openMenu (unquote t1)
  | _ => .unknown line

/-- `_parse_key(tokens, line)`. -/
def parseKey (tokens : List Str) (line : Str) : Message :=
  match tokens with
  | [t0, t1] => if t0 = "KeyPress".data then .keyPress t1 else .keyHold t1
  | _ => .unknown line

/-- `_parse_set_aspect_ratio_mode(tokens, line)`. -/
def parseSetAspectRatioMode (tokens : List Str) (line : Str) : Message :=
  match tokens with
  | [_, t1] => .setAspectRatioMode t1
  | _ => .unknown line

/-- `_parse_activate_profile(tokens, line)`. -/
def parseActivateProfile (tokens : List Str) (line : Str) : Message :=
  match tokens with
  | [_, t1, t2] =>
    match pyInt t2 with
    | none => .unknown line
    | some index => .activateProfile t1 index
  | _ => .unknown line

/-- `_parse_active_profile(tokens, line)`. -/
def parseActiveProfile (tokens : List Str) (line : Str) : Message :=
  match tokens with
  | [_, t1, t2] =>
    match pyInt t2 with
    | none => .unknown line
    | some index => .activeProfile t1 index
  | _ => .unknown line

/-- `_parse_create_profile_group(tokens, line)`. -/
def parseCreateProfileGroup (tokens : List Str) (line : Str) : Message :=
  match tokens with
  | _ :: t1 :: t2 :: rest => .createProfileGroup t1 (unquote (joinSpace (t2 :: rest)))
  | _ => .unknown line

/-- `_parse_rename_profile_group(tokens, line)`. -/
def parseRenameProfileGroup (tokens : List Str) (line : Str) : Message :=
  match tokens with
  | _ :: t1 :: t2 :: rest => .renameProfileGroup t1 (unquote (joinSpace (t2 :: rest)))
  | _ => .unknown line

/-- `_parse_delete_profile_group(tokens, line)`. -/
def parseDeleteProfileGroup (tokens : List Str) (line : Str) : Message :=
  match tokens with
  | [_, t1] => .deleteProfileGroup t1
  | _ => .unknown line

/-- `_parse_profile_change(tokens, line)`: shared by `CreateProfile`,
`RenameProfile` and `DeleteProfile`. -/
def parseProfileChange (tokens : List Str) (line : Str) : Message :=
  match tokens with
  | t0 :: t1 :: t2 :: rest =>
    match pyInt t2 with
    | none => .unknown line
    | some profile_index =>
      if t0 = "DeleteProfile".data then .deleteProfile t1 profile_index
      else
        match rest with
        | [] => .unknown line
        | t3 :: more =>
          let name := unquote (joinSpace (t3 :: more))
          if t0 = "CreateProfile".data then .createProfile t1 profile_index name
          else .renameProfile t1 profile_index name
  | _ => .unknown line

/-- `_parse_profile_page_link(tokens, line)`. -/
def parseProfilePageLink (tokens : List Str) (line : Str) : Message :=
  match tokens with
  | [t0, t1, t2] =>
    if t0 = "AddProfileToPage".data then .addProfileToPage t1 t2
    else .removeProfileFromPage t1 t2
  | _ => .unknown line

/-- `_parse_incoming_signal(tokens, line)`. -/
def parseIncomingSignal (tokens : List Str) (line : Str) : Message :=
  match tokens with
  | _ :: t1 :: t2 :: t3 :: t4 :: t5 :: t6 :: t7 :: t8 :: t9 :: _ =>
    .incomingSignalInfo ⟨t1, t2, t3, t4, t5, t6, t7, t8, t9⟩
  | _ => .unknown line

/-- `_parse_outgoing_signal(tokens, line)`. -/
def parseOutgoingSignal (tokens : List Str) (line : Str) : Message :=
  match tokens with
  | _ :: t1 :: t2 :: t3 :: t4 :: t5 :: t6 :: t7 :: t8 :: _ =>
    .outgoingSignalInfo ⟨t1, t2, t3, t4, t5, t6, t7, t8⟩
  | _ => .unknown line

/-- `_parse_aspect_ratio(tokens, line)`: `float(tokens[2])` is called without
a guard, so its failure raises `ValueError` out of this parser (modelled as
`none`); `parse_message` catches it. -/
def parseAspectRatio (tokens : List Str) (line : Str) : Option Message :=
  match tokens with
  | _ :: t1 :: t2 :: t3 :: t4 :: rest =>
    match pyFloat t2 with
    | none => none
    | some decimal_ratio =>
      match pyInt t3 with
      | none => some (.unknown line)
      | some integer_ratio =>
        some (.aspectRatio ⟨t1, decimal_ratio, integer_ratio, unquote (joinSpace (t4 :: rest))⟩)
  | _ => some (.unknown line)

/-- `_parse_masking_ratio(tokens, line)`: the integer is checked first, then
`float(tokens[2])` may raise (modelled as `none`). -/
def parseMaskingRatio (tokens : List Str) (line : Str) : Option Message :=
  match tokens with
  | [_, t1, t2, t3] =>
    match pyInt t3 with
    | none => some (.unknown line)
    | some integer_ratio =>
      match pyFloat t2 with
      | none => none
      | some decimal_ratio => some (.maskingRatio ⟨t1, decimal_ratio, integer_ratio⟩)
  | _ => some (.unknown line)

/-- Parse every token of a list as an integer; `none` when any fails
(models `any(value is None for value in values)`). -/
def mapPyInt : List Str → Option (List Int)
  | [] => some []
  | t :: ts =>
    match pyInt t, mapPyInt ts with
    | some v, some vs => some (v :: vs)
    | _, _ => none

/-- `_parse_temperatures(tokens, line)`. -/
def parseTemperatures (tokens : List Str) (line : Str) : Message :=
  match tokens with
  | _ :: t1 :: t2 :: t3 :: t4 :: rest =>
    match pyInt t1, pyInt t2, pyInt t3, pyInt t4, mapPyInt rest with
    | some v1, some v2, some v3, some v4, some extra => .temperatures ⟨v1, v2, v3, v4, extra⟩
    | _, _, _, _, _ => .unknown line
  | _ => .unknown line

/-- Character class `[0-9A-Fa-f:-]` of the MAC-address pattern. -/
def isMacChar (c : Char) : Bool :=
  c.isDigit || ('A' ≤ c && c ≤ 'F') || ('a' ≤ c && c ≤ 'f') || c = ':' || c = '-'

/-- `_parse_mac(tokens, line)`: the token must match `^[0-9A-Fa-f:-]{17}$`. -/
def parseMac (tokens : List Str) (line : Str) : Message :=
  match tokens with
  | [_, t1] =>
    if t1.length = 17 && t1.all isMacChar then .macAddress t1 else .unknown line
  | _ => .unknown line

/-- `_parse_profile_group(tokens, line)`. -/
def parseProfileGroup (tokens : List Str) (line : Str) : Message :=
  if tokens = ["ProfileGroup.".data] then .profileGroupEnd
  else
    match tokens with
    | _ :: t1 :: t2 :: rest => .profileGroup t1 (unquote (joinSpace (t2 :: rest)))
    | _ => .unknown line

/-- `_parse_profile(tokens, line)`. -/
def parseProfile (tokens : List Str) (line : Str) : Message :=
  if tokens = ["Profile.".data] then .profileEnd
  else
    match tokens with
    | _ :: t1 :: t2 :: rest => .profile t1 (unquote (joinSpace (t2 :: rest)))
    | _ => .unknown line

/-- `_parse_setting_page(tokens, line)`. -/
def parseSettingPage (tokens : List Str) (line : Str) : Message :=
  if tokens = ["SettingPage.".data] then .settingPageEnd
  else
    match tokens with
    | _ :: t1 :: t2 :: rest => .settingPage t1 (unquote (joinSpace (t2 :: rest)))
    | _ => .unknown line

/-- `_parse_config_page(tokens, line)`. -/
def parseConfigPage (tokens : List Str) (line : Str) : Message :=
  if tokens = ["ConfigPage.".data] then .configPageEnd
  else
    match tokens with
    | _ :: t1 :: t2 :: rest => .configPage t1 (unquote (joinSpace (t2 :: rest)))
    | _ => .unknown line

/-- `_parse_option(tokens, line)`. -/
def parseOption (tokens : List Str) (line : Str) : Message :=
  if tokens = ["Option.".data] then .optionEnd
  else
    match tokens with
    | [_, t1, t2, t3, t4] =>
      .option ⟨t1, t2, parse_option_scalar t1 t3, parse_option_scalar t1 t4⟩
    | _ => .unknown line

/-- `_parse_change_option(tokens, line)`. -/
def parseChangeOption (tokens : List Str) (line : Str) : Message :=
  match tokens with
  | [_, t1, t2, t3, t4] =>
    .changeOption ⟨t1, t2, parse_option_scalar t1 t3, parse_option_scalar t1 t4⟩
  | _ => .unknown line

/-- `_parse_inherit_option(tokens, line)`. -/
def parseInheritOption (tokens : List Str) (line : Str) : Message :=
  match tokens with
  | [_, t1, t2, t3] => .inheritOption ⟨t1, t2, parse_option_scalar t1 t3⟩
  | _ => .unknown line

/-- `_parse_upload_3dlut_file(tokens, line)`. -/
def parseUpload3DLUTFile (tokens : List Str) (line : Str) : Message :=
  match tokens with
  | _ :: t1 :: rest => .upload3DLUTFile (unquote (joinSpace (t1 :: rest)))
  | _ => .unknown line

/-- `_parse_rename_3dlut_file(tokens, line)`. -/
def parseRename3DLUTFile (tokens : List Str) (line : Str) : Message :=
  match tokens with
  | [_, t1, t2] => .rename3DLUTFile (unquote t1) (unquote t2)
  | _ => .unknown line

/-- `_parse_delete_3dlut_file(tokens, line)`. -/
def parseDelete3DLUTFile (tokens : List Str) (line : Str) : Message :=
  match tokens with
  | _ :: t1 :: rest => .delete3DLUTFile (unquote (joinSpace (t1 :: rest)))
  | _ => .unknown line

/-- `_parse_store_settings(tokens, line)`. -/
def parseStoreSettings (tokens : List Str) (line : Str) : Message :=
  match tokens with
  | _ :: t1 :: t2 :: rest => .storeSettings t1 (unquote (joinSpace (t2 :: rest)))
  | _ => .unknown line

/-- `_parse_restore_settings(tokens, line)`. -/
def parseRestoreSettings (tokens : List Str) (line : Str) : Message :=
  match tokens with
  | [_, t1] => .restoreSettings t1
  | _ => .unknown line

/-- `str.startswith` on character lists. -/
def hasLead (lead s : Str) : Prop :=
  s.take lead.length = lead

instance (lead s : Str) : Decidable (hasLead lead s) := by
  unfold hasLead
  infer_instance

/-- Segment 5 of the dispatch chain of `parse_message` (protocol.py lines
760-781): `Toggle` through `MissingHeartbeat`, then the final fall-through,
which returns `Unknown` carrying the original (unstripped) line. -/
def dispatchMessage5 (head : Str) (tokens : List Str) (line : Str) : Message :=
  if head = "Toggle".data ∧ tokens.length = 2 then
    match tokens with
    | [_, t1] => .toggle t1
    | _ => .unknown line
  else if head = "ToneMapOn".data then .toneMapOn
  else if head = "ToneMapOff".data then .toneMapOff
  else if head = "DisplayChanged".data then .displayChanged
  else if head = "RefreshLicenseInfo".data then .refreshLicenseInfo
  else if head = "Force1080p60Output".data then .force1080p60Output
  else if head = "Hotplug".data then .hotplug
  else if head = "FirmwareUpdate".data then .firmwareUpdate
  else if head = "MissingHeartbeat".data then .missingHeartbeat
  else .unknown line

/-- Second half of segment 4 (protocol.py lines 748-759): `Upload3DLUTFile`
through `RestoreSettings`. -/
def dispatchMessage4b (head : Str) (tokens : List Str) (normalized line : Str) : Message :=
  if head = "Upload3DLUTFile".data then parseUpload3DLUTFile tokens normalized
  else if head = "Rename3DLUTFile".data then parseRename3DLUTFile tokens normalized
  else if head = "Delete3DLUTFile".data then parseDelete3DLUTFile tokens normalized
  else if head = "UploadSettingsFile".data then .uploadSettingsFile
  else if head = "StoreSettings".data then parseStoreSettings tokens normalized
  else if head = "RestoreSettings".data then parseRestoreSettings tokens normalized
  else dispatchMessage5 head tokens line

/-- Segment 4 (protocol.py lines 732-747): the `ProfileGroup`/`Profile`/
`SettingPage`/`ConfigPage`/`Option` verb families dispatched by prefix, then
`ChangeOption`, `InheritOption` and `ResetTemporary`. -/
def dispatchMessage4 (head : Str) (tokens : List Str) (normalized line : Str) : Message :=
  if hasLead "ProfileGroup".data head then parseProfileGroup tokens normalized
  else if hasLead "Profile".data head then parseProfile tokens normalized
  else if hasLead "SettingPage".data head then parseSettingPage tokens normalized
  else if hasLead "ConfigPage".data head then parseConfigPage tokens normalized
  else if hasLead "Option".data head then parseOption tokens normalized
  else if head = "ChangeOption".data then parseChangeOption tokens normalized
  else if head = "InheritOption".data then parseInheritOption tokens normalized
  else if head = "ResetTemporary".data then .resetTemporary
  else dispatchMessage4b head tokens normalized line

/-- Segment 3 (protocol.py lines 716-731): the profile-change family through
`MacAddress`.  The `AspectRatio` and `MaskingRatio` parsers may raise
`ValueError` from `float()`; the `except` handler of `parse_message` turns
that into `Unknown` carrying the original (unstripped) line. -/
def dispatchMessage3 (head : Str) (tokens : List Str) (normalized line : Str) : Message :=
  if head = "CreateProfile".data ∨ head = "RenameProfile".data ∨ head = "DeleteProfile".data then
    parseProfileChange tokens normalized
  else if head = "AddProfileToPage".data ∨ head = "RemoveProfileFromPage".data then
    parseProfilePageLink tokens normalized
  else if head = "IncomingSignalInfo".data then parseIncomingSignal tokens normalized
  else if head = "OutgoingSignalInfo".data then parseOutgoingSignal tokens normalized
  else if head = "AspectRatio".data then
    match parseAspectRatio tokens normalized with
    | some m => m
    | none => .unknown line
  else if head = "MaskingRatio".data then
    match parseMaskingRatio tokens normalized with
    | some m => m
    | none => .unknown line
  else if head = "Temperatures".data then parseTemperatures tokens normalized
  else if head = "MacAddress".data then parseMac tokens normalized
  else dispatchMessage4 head tokens normalized line

/-- Segment 2 (protocol.py lines 702-715): `KeyPress`/`KeyHold` through
`DeleteProfileGroup`. -/
def dispatchMessage2 (head : Str) (tokens : List Str) (normalized line : Str) : Message :=
  if head = "KeyPress".data ∨ head = "KeyHold".data then parseKey tokens normalized
  else if head = "SetAspectRatioMode".data then parseSetAspectRatioMode tokens normalized
  else if head = "ActivateProfile".data then parseActivateProfile tokens normalized
  else if head = "ActiveProfile".data then parseActiveProfile tokens normalized
  else if head = "CreateProfileGroup".data then parseCreateProfileGroup tokens normalized
  else if head = "RenameProfileGroup".data then parseRenameProfileGroup tokens normalized
  else if head = "DeleteProfileGroup".data then parseDeleteProfileGroup tokens normalized
  else dispatchMessage3 head tokens normalized line

/-- Segment 1 of the dispatch chain in the `try` block of `parse_message`
(protocol.py lines 681-701): `WELCOME` through `CloseMenu`, continuing into
the later segments.  `normalized` is the stripped line handed to the shape
parsers; `line` is the original line used by the `except` handler and the
final fall-through. -/
def dispatchMessage (head : Str) (tokens : List Str) (normalized line : Str) : Message :=
  if hasLead welcomeLead normalized then parseWelcome normalized
  else if head = "OK".data then .okMsg
  else if head = "ERROR".data then parseError normalized
  else if head = "Standby".data then .standby
  else if head = "PowerOff".data then .powerOff
  else if head = "Restart".data then .restart
  else if head = "ReloadSoftware".data then .reloadSoftware
  else if head = "NoSignal".data then .noSignal
  else if head = "OpenMenu".data then parseOpenMenu tokens normalized
  else if head = "CloseMenu".data then .closeMenu
  else dispatchMessage2 head tokens normalized line

/-- `parse_message(line)`: strip, special-case the empty line, tokenize and
dispatch.  `tokens[0]` is evaluated outside the `try` block, so an empty
token list would raise `IndexError` to the caller; that is modelled by the
`none` result (proved unreachable in `parse_total`). -/
def parse_message (line : Str) : Option Message :=
  if pyStrip line = [] then some (.unknown line)
  else
    match tokensOf (pyStrip line) with
    | [] => none
    | head :: rest => some (dispatchMessage head (head :: rest) (pyStrip line) line)

example : parse_message "WELCOME to Envy v1.1.3".data = some (.welcome "1.1.3".data) := rfl
example : parse_message "OK".data = some .okMsg := rfl
example : parse_message "ERROR \"invalid command\"".data =
    some (.errorMsg "invalid command".data) := rfl
example : parse_message "KeyPress MENU".data = some (.keyPress "MENU".data) := rfl
example : parse_message "Temperatures 55 48 60 42".data =
    some (.temperatures ⟨55, 48, 60, 42, []⟩) := rfl
example : parse_message "Temperatures 55 48 60 42 39 31".data =
    some (.temperatures ⟨55, 48, 60, 42, [39, 31]⟩) := rfl
example : parse_message "ProfileGroup.".data = some .profileGroupEnd := rfl
example : parse_message "ProfileGroup displayProfiles \"Displays\"".data =
    some (.profileGroup "displayProfiles".data "Displays".data) := rfl
example : parse_message "Profile profile1 \"Day Mode\"".data =
    some (.profile "profile1".data "Day Mode".data) := rfl
example : parse_message "".data = some (.unknown []) := rfl
example : parse_message "   ".data = some (.unknown "   ".data) := rfl
example : parse_message "Bogus stuff".data = some (.unknown "Bogus stuff".data) := rfl
example : parse_message "MacAddress 00:11:22:33:44:55".data =
    some (.macAddress "00:11:22:33:44:55".data) := rfl
example : parse_message "CreateProfile customProfileGroup1 2 \"New Profile\"".data =
    some (.createProfile "customProfileGroup1".data 2 "New Profile".data) := rfl
example : parse_message "DeleteProfile customProfileGroup1 2".data =
    some (.deleteProfile "customProfileGroup1".data 2) := rfl
example : parse_message "Toggle ToneMap".data = some (.toggle "ToneMap".data) := rfl
example : parse_message "Toggle a b".data = some (.unknown "Toggle a b".data) := rfl
example : parse_message " OpenMenu".data = some (.unknown "OpenMenu".data) := rfl
example : parse_message "WELCOME to Envy v".data =
    some (.unknown "WELCOME to Envy v".data) := rfl

/-- First-match lookup in an association list (Python `dict[k]` access /
`dict.get`). -/
def dictGet {α : Type} : List (Str × α) → Str → Option α
  | [], _ => none
  | (k', v') :: rest, k => if k' = k then some v' else dictGet rest k

/-- Python `dict[k] = v`: replace the value at an existing key in place,
otherwise append the new pair. -/
def dictSet {α : Type} : List (Str × α) → Str → α → List (Str × α)
  | [], k, v => [(k, v)]
  | (k', v') :: rest, k, v =>
    if k' = k then (k', v) :: rest else (k', v') :: dictSet rest k v

/-- Python `dict.pop(k, None)`: remove the entry at the key if present
(keys are unique in every dictionary the state builds). -/
def dictPop {α : Type} : List (Str × α) → Str → List (Str × α)
  | [], _ => []
  | kv :: rest, k => if kv.1 = k then dictPop rest k else kv :: dictPop rest k

/-- `EnvyState` (state.py): the canonical mutable projection, with `None`
modelled as `Option` and the `dict` fields as association lists. -/
structure EnvyState where
  version : Option Str := none
  is_on : Option Bool := none
  standby : Option Bool := none
  mac_address : Option Str := none
  active_profile_group : Option Str := none
  active_profile_index : Option Int := none
  incoming_signal : Option IncomingSignalInfoMessage := none
  outgoing_signal : Option OutgoingSignalInfoMessage := none
  aspect_ratio : Option AspectRatioMessage := none
  masking_ratio : Option MaskingRatioMessage := none
  temperatures : Option TemperaturesMessage := none
  signal_present : Option Bool := none
  current_menu : Option Str := none
  aspect_ratio_mode : Option Str := none
  last_button_event : Option (Str × Str) := none
  settings_pages : List (Str × Str) := []
  config_pages : List (Str × Str) := []
  profile_groups : List (Str × Str) := []
  profiles : List (Str × Str) := []
  options : List (Str × OptionMessage) := []
  tone_map_enabled : Option Bool := none
  last_option_change : Option ChangeOptionMessage := none
  last_inherit_option : Option InheritOptionMessage := none
  last_uploaded_3dlut : Option Str := none
  last_renamed_3dlut : Option (Str × Str) := none
  last_deleted_3dlut : Option Str := none
  settings_upload_count : Int := 0
  last_store_settings : Option (Str × Str) := none
  last_restore_settings : Option Str := none
  temporary_reset_count : Int := 0
  display_changed_count : Int := 0
  firmware_update_pending : Bool := false
  last_missing_heartbeat : Bool := false
  last_system_action : Option Str := none
  seen_welcome : Bool := false
  deriving DecidableEq, Repr

/-- `EnvyState.reset_runtime_values()`: every runtime field back to its
initial value. -/
def EnvyState.reset_runtime_values (_ : EnvyState) : EnvyState := {}

/-- `EnvyState.synced` property. -/
def EnvyState.synced (s : EnvyState) : Bool := s.seen_welcome

/-- Python `str(int)`: decimal rendering with a leading `-` for negatives. -/
def intToStr (i : Int) : Str := (toString i).data

/-- The synthesized profile key `f"{group}_{index}"`. -/
def profileKey (group : Str) (index : Int) : Str :=
  group ++ '_' :: intToStr index

/-- `EnvyState.apply(message)` (state.py lines 144-250): fold one message
into the state.  Message variants without a branch in the `elif` chain leave
the state unchanged. -/
def EnvyState.apply (s : EnvyState) (message : Message) : EnvyState :=
  match message with
  | .welcome version =>
    { s with version := some version, seen_welcome := true,
             is_on := some true, standby := some false }
  | .standby => { s with is_on := some false, standby := some true }
  | .powerOff => { s with is_on := some false, standby := some false }
  | .restart => { s with last_system_action := some "Restart".data }
  | .reloadSoftware => { s with last_system_action := some "ReloadSoftware".data }
  | .noSignal => { s with signal_present := some false }
  | .openMenu menu => { s with current_menu := some menu }
  | .closeMenu => { s with current_menu := none }
  | .keyPress button => { s with last_button_event := some ("press".data, button) }
  | .keyHold button => { s with last_button_event := some ("hold".data, button) }
  | .setAspectRatioMode mode => { s with aspect_ratio_mode := some mode }
  | .macAddress mac => { s with mac_address := some mac }
  | .temperatures info => { s with temperatures := some info }
  | .incomingSignalInfo info =>
    { s with incoming_signal := some info, signal_present := some true }
  | .outgoingSignalInfo info => { s with outgoing_signal := some info }
  | .aspectRatio info => { s with aspect_ratio := some info }
  | .maskingRatio info => { s with masking_ratio := some info }
  | .activeProfile profile_group profile_index =>
    { s with active_profile_group := some profile_group,
             active_profile_index := some profile_index }
  | .activateProfile profile_group profile_index =>
    { s with active_profile_group := some profile_group,
             active_profile_index := some profile_index }
  | .createProfileGroup group_id name =>
    { s with profile_groups := dictSet s.profile_groups group_id name }
  | .renameProfileGroup group_id name =>
    { s with profile_groups := dictSet s.profile_groups group_id name }
  | .profileGroup group_id name =>
    { s with profile_groups := dictSet s.profile_groups group_id name }
  | .deleteProfileGroup group_id =>
    { s with profile_groups := dictPop s.profile_groups group_id }
  | .profile profile_id name => { s with profiles := dictSet s.profiles profile_id name }
  | .createProfile profile_group profile_index name =>
    { s with profiles := dictSet s.profiles (profileKey profile_group profile_index) name }
  | .renameProfile profile_group profile_index name =>
    { s with profiles := dictSet s.profiles (profileKey profile_group profile_index) name }
  | .deleteProfile profile_group profile_index =>
    { s with profiles := dictPop s.profiles (profileKey profile_group profile_index) }
  | .settingPage page_id name =>
    { s with settings_pages := dictSet s.settings_pages page_id name }
  | .configPage page_id name =>
    { s with config_pages := dictSet s.config_pages page_id name }
  | .option info => { s with options := dictSet s.options info.option_id info }
  | .changeOption info =>
    { s with last_option_change := some info,
             options := dictSet s.options info.option_id_path
               ⟨info.option_type, info.option_id_path,
                info.current_value, info.effective_value⟩ }
  | .inheritOption info => { s with last_inherit_option := some info }
  | .resetTemporary => { s with temporary_reset_count := s.temporary_reset_count + 1 }
  | .upload3DLUTFile filename => { s with last_uploaded_3dlut := some filename }
  | .rename3DLUTFile old_filename new_filename =>
    { s with last_renamed_3dlut := some (old_filename, new_filename) }
  | .delete3DLUTFile filename => { s with last_deleted_3dlut := some filename }
  | .uploadSettingsFile =>
    { s with settings_upload_count := s.settings_upload_count + 1 }
  | .storeSettings target storage_name =>
    { s with last_store_settings := some (target, storage_name) }
  | .restoreSettings target => { s with last_restore_settings := some target }
  | .toggle option =>
    { s with last_system_action := some ("Toggle:".data ++ option) }
  | .toneMapOn => { s with tone_map_enabled := some true }
  | .toneMapOff => { s with tone_map_enabled := some false }
  | .displayChanged => { s with display_changed_count := s.display_changed_count + 1 }
  | .refreshLicenseInfo => { s with last_system_action := some "RefreshLicenseInfo".data }
  | .force1080p60Output => { s with last_system_action := some "Force1080p60Output".data }
  | .hotplug => { s with last_system_action := some "Hotplug".data }
  | .firmwareUpdate => { s with firmware_update_pending := true }
  | .missingHeartbeat => { s with last_missing_heartbeat := true }
  | .addProfileToPage _ _ =>
    { s with last_system_action := some "AddProfileToPageMessage".data }
  | .removeProfileFromPage _ _ =>
    { s with last_system_action := some "RemoveProfileFromPageMessage".data }
  | _ => s

example : (EnvyState.apply {} (.welcome "1.1.3".data)).synced = true := by decide
example : (EnvyState.apply {} (.welcome "1.1.3".data)).is_on = some true := by decide
example : (EnvyState.apply {} .okMsg) = {} := by decide

/-- Lexicographic (code-point) order on Python strings, as used by `sorted`
with a string key. -/
def strLe : Str → Str → Bool
  | [], _ => true
  | _ :: _, [] => false
  | a :: xs, b :: ys =>
    if a.toNat < b.toNat then true
    else if b.toNat < a.toNat then false
    else strLe xs ys

/-- Stable insertion into an ascending list: after all entries whose key is
less than or equal. -/
def insertByKey {α : Type} (x : Str × α) : List (Str × α) → List (Str × α)
  | [] => [x]
  | y :: ys => if strLe y.1 x.1 then y :: insertByKey x ys else x :: y :: ys

/-- Python `sorted(d.items(), key=lambda item: item[0])`: stable ascending
sort by key. -/
def sortByKey {α : Type} (l : List (Str × α)) : List (Str × α) :=
  l.foldl (fun acc x => insertByKey x acc) []

instance decEqSig9 :
    DecidableEq (Str × Str × Str × Str × Str × Str × Str × Str × Str) :=
  fun a b => inferInstanceAs (Decidable (a = b))

instance decEqSig8 :
    DecidableEq (Str × Str × Str × Str × Str × Str × Str × Str) :=
  fun a b => inferInstanceAs (Decidable (a = b))

/-- `EnvySnapshot` (adapter.py): immutable, comparison-friendly view of
`EnvyState`. -/
structure EnvySnapshot where
  synced : Bool
  version : Option Str
  is_on : Option Bool
  standby : Option Bool
  signal_present : Option Bool
  mac_address : Option Str
  active_profile_group : Option Str
  active_profile_index : Option Int
  current_menu : Option Str
  aspect_ratio_mode : Option Str
  incoming_signal : Option (Str × Str × Str × Str × Str × Str × Str × Str × Str)
  outgoing_signal : Option (Str × Str × Str × Str × Str × Str × Str × Str)
  aspect_ratio : Option (Str × ℚ × Int × Str)
  masking_ratio : Option (Str × ℚ × Int)
  tone_map_enabled : Option Bool
  temperatures : Option (Int × Int × Int × Int)
  settings_pages : List (Str × Str)
  config_pages : List (Str × Str)
  profile_groups : List (Str × Str)
  profiles : List (Str × Str)
  options : List (Str × Str × OptionScalar × OptionScalar)
  last_system_action : Option Str
  last_button_event : Option (Str × Str)
  last_inherit_option_path : Option Str
  last_inherit_option_effective : Option OptionScalar
  last_uploaded_3dlut : Option Str
  last_renamed_3dlut : Option (Str × Str)
  last_deleted_3dlut : Option Str
  last_store_settings : Option (Str × Str)
  last_restore_settings : Option Str
  temporary_reset_count : Int
  display_changed_count : Int
  settings_upload_count : Int
  deriving DecidableEq, Repr

/-- `snapshot_from_state(state)`. -/
def snapshot_from_state (state : EnvyState) : EnvySnapshot where
  synced := state.synced
  version := state.version
  is_on := state.is_on
  standby := state.standby
  signal_present := state.signal_present
  mac_address := state.mac_address
  active_profile_group := state.active_profile_group
  active_profile_index := state.active_profile_index
  current_menu := state.current_menu
  aspect_ratio_mode := state.aspect_ratio_mode
  incoming_signal :=
    state.incoming_signal.map (fun i =>
      (i.resolution, i.frame_rate, i.signal_type, i.color_space, i.bit_depth,
       i.hdr_mode, i.colorimetry, i.black_levels, i.aspect_ratio))
  outgoing_signal :=
    state.outgoing_signal.map (fun o =>
      (o.resolution, o.frame_rate, o.signal_type, o.color_space, o.bit_depth,
       o.hdr_mode, o.colorimetry, o.black_levels))
  aspect_ratio :=
    state.aspect_ratio.map (fun a =>
      (a.resolution, a.decimal_ratio, a.integer_ratio, a.name))
  masking_ratio :=
    state.masking_ratio.map (fun m =>
      (m.resolution, m.decimal_ratio, m.integer_ratio))
  tone_map_enabled := state.tone_map_enabled
  temperatures :=
    state.temperatures.map (fun t => (t.gpu, t.hdmi_input, t.cpu, t.mainboard))
  settings_pages := sortByKey state.settings_pages
  config_pages := sortByKey state.config_pages
  profile_groups := sortByKey state.profile_groups
  profiles := sortByKey state.profiles
  options :=
    (sortByKey state.options).map (fun kv =>
      (kv.1, kv.2.option_type, kv.2.current_value, kv.2.effective_value))
  last_system_action := state.last_system_action
  last_button_event := state.last_button_event
  last_inherit_option_path := state.last_inherit_option.map (fun i => i.option_id_path)
  last_inherit_option_effective := state.last_inherit_option.map (fun i => i.effective_value)
  last_uploaded_3dlut := state.last_uploaded_3dlut
  last_renamed_3dlut := state.last_renamed_3dlut
  last_deleted_3dlut := state.last_deleted_3dlut
  last_store_settings := state.last_store_settings
  last_restore_settings := state.last_restore_settings
  temporary_reset_count := state.temporary_reset_count
  display_changed_count := state.display_changed_count
  settings_upload_count := state.settings_upload_count

/-- A Python value as stored in a snapshot field, a delta, or an event
payload.  Distinct snapshot field types map to distinct constructors, so the
modelled equality agrees with Python `==` on these values. -/
inductive PyVal where
  | noneV
  | boolV (b : Bool)
  | intV (i : Int)
  | strV (s : Str)
  | scalarV (v : OptionScalar)
  | pairV (p : Str × Str)
  | sig9V (p : Str × Str × Str × Str × Str × Str × Str × Str × Str)
  | sig8V (p : Str × Str × Str × Str × Str × Str × Str × Str)
  | arV (p : Str × ℚ × Int × Str)
  | mrV (p : Str × ℚ × Int)
  | tempsV (p : Int × Int × Int × Int)
  | rowsV (xs : List (Str × Str))
  | optRowsV (xs : List (Str × Str × OptionScalar × OptionScalar))
  deriving DecidableEq, Repr

/-- Encode a Python `T | None` value. -/
def optV {α : Type} (f : α → PyVal) : Option α → PyVal
  | none => .noneV
  | some a => f a

/-- `StateDelta`: one changed field between two snapshots. -/
structure StateDelta where
  field : Str
  old : PyVal
  new : PyVal
  deriving DecidableEq, Repr

/-- `AdapterEvent`: high-level event for integration consumers. -/
structure AdapterEvent where
  kind : Str
  payload : List (Str × PyVal)
  deriving DecidableEq, Repr

/-- The dataclass fields of `EnvySnapshot`, in declaration order, with their
value projections — the list iterated by `_build_deltas` via
`fields(EnvySnapshot)`. -/
def snapFieldDefs : List (Str × (EnvySnapshot → PyVal)) :=
  [("synced".data, fun s => .boolV s.synced),
   ("version".data, fun s => optV .strV s.version),
   ("is_on".data, fun s => optV .boolV s.is_on),
   ("standby".data, fun s => optV .boolV s.standby),
   ("signal_present".data, fun s => optV .boolV s.signal_present),
   ("mac_address".data, fun s => optV .strV s.mac_address),
   ("active_profile_group".data, fun s => optV .strV s.active_profile_group),
   ("active_profile_index".data, fun s => optV .intV s.active_profile_index),
   ("current_menu".data, fun s => optV .strV s.current_menu),
   ("aspect_ratio_mode".data, fun s => optV .strV s.aspect_ratio_mode),
   ("incoming_signal".data, fun s => optV .sig9V s.incoming_signal),
   ("outgoing_signal".data, fun s => optV .sig8V s.outgoing_signal),
   ("aspect_ratio".data, fun s => optV .arV s.aspect_ratio),
   ("masking_ratio".data, fun s => optV .mrV s.masking_ratio),
   ("tone_map_enabled".data, fun s => optV .boolV s.tone_map_enabled),
   ("temperatures".data, fun s => optV .tempsV s.temperatures),
   ("settings_pages".data, fun s => .rowsV s.settings_pages),
   ("config_pages".data, fun s => .rowsV s.config_pages),
   ("profile_groups".data, fun s => .rowsV s.profile_groups),
   ("profiles".data, fun s => .rowsV s.profiles),
   ("options".data, fun s => .optRowsV s.options),
   ("last_system_action".data, fun s => optV .strV s.last_system_action),
   ("last_button_event".data, fun s => optV .pairV s.last_button_event),
   ("last_inherit_option_path".data, fun s => optV .strV s.last_inherit_option_path),
   ("last_inherit_option_effective".data, fun s => optV .scalarV s.last_inherit_option_effective),
   ("last_uploaded_3dlut".data, fun s => optV .strV s.last_uploaded_3dlut),
   ("last_renamed_3dlut".data, fun s => optV .pairV s.last_renamed_3dlut),
   ("last_deleted_3dlut".data, fun s => optV .strV s.last_deleted_3dlut),
   ("last_store_settings".data, fun s => optV .pairV s.last_store_settings),
   ("last_restore_settings".data, fun s => optV .strV s.last_restore_settings),
   ("temporary_reset_count".data, fun s => .intV s.temporary_reset_count),
   ("display_changed_count".data, fun s => .intV s.display_changed_count),
   ("settings_upload_count".data, fun s => .intV s.settings_upload_count)]

/-- `_build_deltas(previous, current)`: one `StateDelta` per snapshot field
whose values differ. -/
def build_deltas (previous current : EnvySnapshot) : List StateDelta :=
  snapFieldDefs.filterMap (fun fd =>
    if fd.2 previous = fd.2 current then none
    else some ⟨fd.1, fd.2 previous, fd.2 current⟩)

/-- `_counter_event(kind, previous, current, field_name)` specialised to the
integer counter fields (the `isinstance(…, int)` guards always hold for
them): an event exactly when the counter strictly increased. -/
def counter_event (kind : Str) (old_value new_value : Int) : Option AdapterEvent :=
  if new_value ≤ old_value then none
  else some ⟨kind, [("count".data, .intV new_value),
                    ("increment".data, .intV (new_value - old_value))]⟩

/-- `_change_event(kind, old_value, new_value, payload_key)`. -/
def change_event (kind : Str) (old_value new_value : PyVal) (payload_key : Str) :
    Option AdapterEvent :=
  if new_value = .noneV ∨ new_value = old_value then none
  else some ⟨kind, [(payload_key, new_value)]⟩

/-- `_build_events(previous, current)`: the eleven candidate events in
source order, keeping those that fired. -/
def build_events (previous current : EnvySnapshot) : List AdapterEvent :=
  ([counter_event "temporary_reset".data
      previous.temporary_reset_count current.temporary_reset_count,
    counter_event "display_changed".data
      previous.display_changed_count current.display_changed_count,
    counter_event "settings_uploaded".data
      previous.settings_upload_count current.settings_upload_count,
    change_event "system_action".data
      (optV .strV previous.last_system_action)
      (optV .strV current.last_system_action) "action".data,
    change_event "button".data
      (optV .pairV previous.last_button_event)
      (optV .pairV current.last_button_event) "button".data,
    change_event "option_inherited".data
      (optV .strV previous.last_inherit_option_path)
      (optV .strV current.last_inherit_option_path) "path".data,
    change_event "lut_uploaded".data
      (optV .strV previous.last_uploaded_3dlut)
      (optV .strV current.last_uploaded_3dlut) "filename".data,
    change_event "lut_renamed".data
      (optV .pairV previous.last_renamed_3dlut)
      (optV .pairV current.last_renamed_3dlut) "rename".data,
    change_event "lut_deleted".data
      (optV .strV previous.last_deleted_3dlut)
      (optV .strV current.last_deleted_3dlut) "filename".data,
    change_event "settings_stored".data
      (optV .pairV previous.last_store_settings)
      (optV .pairV current.last_store_settings) "store".data,
    change_event "settings_restored".data
      (optV .strV previous.last_restore_settings)
      (optV .strV current.last_restore_settings) "target".data]).filterMap id

/-- `EnvyStateAdapter.update(state)` with the `_last_snapshot` attribute made
explicit: returns the snapshot, deltas, events, and the new retained
snapshot. -/
def adapterUpdate (last_snapshot : Option EnvySnapshot) (state : EnvyState) :
    EnvySnapshot × List StateDelta × List AdapterEvent × Option EnvySnapshot :=
  let snapshot := snapshot_from_state state
  match last_snapshot with
  | none => (snapshot, [], [], some snapshot)
  | some previous =>
    (snapshot, build_deltas previous snapshot, build_events previous snapshot, some snapshot)

/-- The library error kinds of `exceptions.py` that the supervisor raises to
a caller of `_command`. -/
inductive MadvrEnvyError where
  | connectionFailed
  | connectionTimeout
  | notConnected
  | commandRejected (command : Str) (error : Str)
  deriving DecidableEq, Repr

/-- The guard of `MadvrEnvyClient._resolve_ack_waiter`: only `OkMessage` and
`ErrorMessage` are acknowledgements. -/
def is_ack_message : Message → Bool
  | .okMsg => true
  | .errorMsg _ => true
  | _ => false

/-- `MadvrEnvyClient._resolve_ack_waiter(message)` on the waiter deque
(pending futures modelled as unit placeholders): a non-ack message leaves the
deque alone; an ack pops the head waiter (when any) and completes it with the
message.  Returns the remaining deque and the message delivered to the popped
waiter. -/
def resolve_ack_waiter (message : Message) (waiters : List Unit) :
    List Unit × Option Message :=
  if is_ack_message message = false then (waiters, none)
  else
    match waiters with
    | [] => ([], none)
    | _ :: rest => (rest, some message)

/-- The tail of `MadvrEnvyClient._command` after the ack future resolves
(client.py lines 429-432): an `ErrorMessage` ack raises
`CommandRejectedError(line, ack_message.error)`, any other ack is returned. -/
def command_ack_outcome (line : Str) (ack_message : Message) :
    Except MadvrEnvyError Message :=
  match ack_message with
  | .errorMsg error => .error (.commandRejected line error)
  | m => .ok m

/-- The reconnect policy parameters of `MadvrEnvyClient`
(`reconnect_initial_backoff`, `reconnect_max_backoff`, `reconnect_jitter`),
with the float values modelled as rationals. -/
structure ReconnectPolicy where
  initial_backoff : ℚ
  max_backoff : ℚ
  jitter : ℚ
  deriving DecidableEq, Repr

/-- One failed iteration of
`MadvrEnvyClient._attempt_reconnect_until_success` (client.py lines 444-448):
given the current `delay` and the value drawn from `self._random()`, returns
the duration passed to `self._sleep` and the updated `delay`. -/
def reconnect_step (p : ReconnectPolicy) (delay rand : ℚ) : ℚ × ℚ :=
  let capped_delay := min delay p.max_backoff
  let jitter_amount := capped_delay * p.jitter * rand
  (capped_delay + jitter_amount,
   min (max (capped_delay * 2) p.initial_backoff) p.max_backoff)

/-- The `delay` value before the (k+1)-st failed connect attempt, for a run
of consecutive failures with random draws `rand`; `delay` starts at
`max(0.0, self.reconnect_initial_backoff)` (client.py line 438). -/
def reconnectDelay (p : ReconnectPolicy) (rand : Nat → ℚ) : Nat → ℚ
  | 0 => max 0 p.initial_backoff
  | k + 1 => (reconnect_step p (reconnectDelay p rand k) (rand k)).2

/-- The duration slept after the (k+1)-st failed connect attempt. -/
def reconnectSleep (p : ReconnectPolicy) (rand : Nat → ℚ) (k : Nat) : ℚ :=
  (reconnect_step p (reconnectDelay p rand k) (rand k)).1

/-- The three message variants whose `apply` branch assigns the power pair
`is_on`/`standby`. -/
def updatesPowerFields : Message → Bool
  | .welcome _ => true
  | .standby => true
  | .powerOff => true
  | _ => false

/-- The message variants without a branch in the `elif` chain of
`EnvyState.apply` (acknowledgements, enumeration end markers, unparseable
lines). -/
def isStateNoOp : Message → Bool
  | .okMsg => true
  | .errorMsg _ => true
  | .unknown _ => true
  | .profileGroupEnd => true
  | .profileEnd => true
  | .settingPageEnd => true
  | .configPageEnd => true
  | .optionEnd => true
  | _ => false

theorem dictGet_dictSet_self {α : Type} (d : List (Str × α)) (k : Str) (v : α) :
    dictGet (dictSet d k v) k = some v := by
  induction d with
  | nil => simp [dictSet, dictGet]
  | cons kv rest ih =>
    by_cases h : kv.1 = k
    · simp [dictSet, dictGet, h]
    · simp [dictSet, dictGet, h, ih]

theorem dictGet_dictPop_self {α : Type} (d : List (Str × α)) (k : Str) :
    dictGet (dictPop d k) k = none := by
  induction d with
  | nil => simp [dictPop, dictGet]
  | cons kv rest ih =>
    by_cases h : kv.1 = k
    · simp [dictPop, h, ih]
    · simp [dictPop, dictGet, h, ih]

theorem dictGet_dictPop_other {α : Type} (d : List (Str × α)) (k k' : Str)
    (h : k' ≠ k) : dictGet (dictPop d k) k' = dictGet d k' := by
  induction d with
  | nil => simp [dictPop, dictGet]
  | cons kv rest ih =>
    by_cases hk : kv.1 = k
    · have hne : kv.1 ≠ k' := by rw [hk]; exact fun hh => h hh.symm
      simp [dictPop, dictGet, hk, hne, Ne.symm h, ih]
    · by_cases hk' : kv.1 = k'
      · simp [dictPop, dictGet, hk, hk', h]
      · simp [dictPop, dictGet, hk, hk', ih]

/-- C2: `EnvyState.apply` sets `is_on=true, standby=false` on `Welcome`,
`is_on=false, standby=true` on `Standby`, `is_on=false, standby=false` on
`PowerOff`, and every other message variant leaves both fields unchanged. -/
theorem apply_power_transitions (s : EnvyState) (v : Str) (m : Message)
    (h : updatesPowerFields m = false) :
    (EnvyState.apply s (.welcome v)).is_on = some true ∧
    (EnvyState.apply s (.welcome v)).standby = some false ∧
    (EnvyState.apply s .standby).is_on = some false ∧
    (EnvyState.apply s .standby).standby = some true ∧
    (EnvyState.apply s .powerOff).is_on = some false ∧
    (EnvyState.apply s .powerOff).standby = some false ∧
    (EnvyState.apply s m).is_on = s.is_on ∧
    (EnvyState.apply s m).standby = s.standby := by
  refine ⟨rfl, rfl, rfl, rfl, rfl, rfl, ?_, ?_⟩ <;>
    cases m <;> simp_all [updatesPowerFields, EnvyState.apply]

theorem apply_power_transitions_witness :
    updatesPowerFields .okMsg = false ∧
    ((EnvyState.apply {} (.welcome "1".data)).is_on = some true ∧
     (EnvyState.apply {} (.welcome "1".data)).standby = some false ∧
     (EnvyState.apply {} .standby).is_on = some false ∧
     (EnvyState.apply {} .standby).standby = some true ∧
     (EnvyState.apply {} .powerOff).is_on = some false ∧
     (EnvyState.apply {} .powerOff).standby = some false ∧
     (EnvyState.apply {} .okMsg).is_on = EnvyState.is_on {} ∧
     (EnvyState.apply {} .okMsg).standby = EnvyState.standby {}) :=
  ⟨by decide, apply_power_transitions {} "1".data .okMsg (by decide)⟩

/-- C7: every message variant without an `apply` branch (in particular `Ok`,
`Error` and `Unknown`) leaves the whole state unchanged. -/
theorem apply_noop_frames (s : EnvyState) (m : Message) (h : isStateNoOp m = true) :
    EnvyState.apply s m = s := by
  cases m <;> simp_all [isStateNoOp, EnvyState.apply]

theorem apply_noop_frames_witness :
    isStateNoOp (.errorMsg "bad".data) = true ∧
    EnvyState.apply { version := some "1".data } (.errorMsg "bad".data) =
      { version := some "1".data } :=
  ⟨by decide, apply_noop_frames { version := some "1".data } (.errorMsg "bad".data) (by decide)⟩

/-- C5: `Profile` enumeration items key `profiles` by the device-supplied
`profileId` verbatim; `CreateProfile`/`RenameProfile` upsert under the
synthesized key `"{group}_{index}"`; `DeleteProfile` removes exactly that
synthesized key and leaves every other key (in particular a diverging
verbatim enumerated key) untouched. -/
theorem profile_keying (s : EnvyState) (pid nm g nm' : Str) (i : Int) (k : Str)
    (hk : k ≠ profileKey g i) :
    (EnvyState.apply s (.profile pid nm)).profiles = dictSet s.profiles pid nm ∧
    dictGet (EnvyState.apply s (.profile pid nm)).profiles pid = some nm ∧
    dictGet (EnvyState.apply s (.createProfile g i nm')).profiles (profileKey g i) = some nm' ∧
    dictGet (EnvyState.apply s (.renameProfile g i nm')).profiles (profileKey g i) = some nm' ∧
    dictGet (EnvyState.apply s (.deleteProfile g i)).profiles (profileKey g i) = none ∧
    dictGet (EnvyState.apply s (.deleteProfile g i)).profiles k = dictGet s.profiles k := by
  refine ⟨rfl, ?_, ?_, ?_, ?_, ?_⟩
  · exact dictGet_dictSet_self s.profiles pid nm
  · exact dictGet_dictSet_self s.profiles (profileKey g i) nm'
  · exact dictGet_dictSet_self s.profiles (profileKey g i) nm'
  · exact dictGet_dictPop_self s.profiles (profileKey g i)
  · exact dictGet_dictPop_other s.profiles (profileKey g i) k hk

theorem profile_keying_witness :
    ("p1".data ≠ profileKey "grp".data 2) ∧
    ((EnvyState.apply { profiles := [("p1".data, "Day".data)] }
        (.profile "p1".data "Night".data)).profiles =
      dictSet [("p1".data, "Day".data)] "p1".data "Night".data ∧
     dictGet (EnvyState.apply { profiles := [("p1".data, "Day".data)] }
        (.profile "p1".data "Night".data)).profiles "p1".data = some "Night".data ∧
     dictGet (EnvyState.apply { profiles := [("p1".data, "Day".data)] }
        (.createProfile "grp".data 2 "New".data)).profiles (profileKey "grp".data 2) =
        some "New".data ∧
     dictGet (EnvyState.apply { profiles := [("p1".data, "Day".data)] }
        (.renameProfile "grp".data 2 "New".data)).profiles (profileKey "grp".data 2) =
        some "New".data ∧
     dictGet (EnvyState.apply { profiles := [("p1".data, "Day".data)] }
        (.deleteProfile "grp".data 2)).profiles (profileKey "grp".data 2) = none ∧
     dictGet (EnvyState.apply { profiles := [("p1".data, "Day".data)] }
        (.deleteProfile "grp".data 2)).profiles "p1".data =
        dictGet [("p1".data, "Day".data)] "p1".data) :=
  ⟨by decide,
   profile_keying { profiles := [("p1".data, "Day".data)] }
     "p1".data "Night".data "grp".data "New".data 2 "p1".data (by decide)⟩

/-- C3: when the listen loop completes an ack waiter with a message, that
message is `Ok` or `Error`; an `Error` ack makes the caller of `_command`
fail with `CommandRejectedError` carrying the command line and the error
text, and an `Ok` ack is returned to the caller. -/
theorem command_ack_correlation (line : Str) (m : Message) (waiters : List Unit)
    (h : (resolve_ack_waiter m waiters).2 = some m) :
    (m = .okMsg ∨ ∃ e, m = .errorMsg e) ∧
    (∀ e, m = .errorMsg e →
      command_ack_outcome line m = .error (.commandRejected line e)) ∧
    (m = .okMsg → command_ack_outcome line m = .ok .okMsg) := by
  cases waiters <;> cases m <;>
    simp_all [resolve_ack_waiter, is_ack_message, command_ack_outcome]

theorem command_ack_correlation_witness :
    (resolve_ack_waiter .okMsg [()]).2 = some .okMsg ∧
    ((Message.okMsg = .okMsg ∨ ∃ e, Message.okMsg = .errorMsg e) ∧
     (∀ e, Message.okMsg = .errorMsg e →
       command_ack_outcome "PowerOff".data .okMsg =
         .error (.commandRejected "PowerOff".data e)) ∧
     (Message.okMsg = .okMsg →
       command_ack_outcome "PowerOff".data .okMsg = .ok .okMsg)) :=
  ⟨rfl, command_ack_correlation "PowerOff".data .okMsg [()] rfl⟩

theorem reconnect_capped_invariant (p : ReconnectPolicy)
    (h0 : 0 ≤ p.initial_backoff) (hM : 0 ≤ p.max_backoff) (rand : Nat → ℚ) (k : Nat) :
    min (reconnectDelay p rand k) p.max_backoff =
      min (p.initial_backoff * 2 ^ k) p.max_backoff := by
  induction k with
  | zero => simp [reconnectDelay, max_eq_right h0]
  | succ k ih =>
    rw [reconnectDelay, reconnect_step]
    rcases le_or_lt (p.initial_backoff * 2 ^ k) p.max_backoff with hc | hc
    · have hcap : min (reconnectDelay p rand k) p.max_backoff = p.initial_backoff * 2 ^ k := by
        rw [ih, min_eq_left hc]
      have hup : p.initial_backoff ≤ p.initial_backoff * 2 ^ k * 2 := by
        nlinarith [(one_le_pow₀ (show (1:ℚ) ≤ 2 by norm_num) : (1:ℚ) ≤ 2 ^ k)]
      simp only [hcap]
      rw [max_eq_left hup]
      have hpow : p.initial_backoff * 2 ^ k * 2 = p.initial_backoff * 2 ^ (k + 1) := by ring
      rw [hpow, min_assoc, min_self]
    · have hcap : min (reconnectDelay p rand k) p.max_backoff = p.max_backoff := by
        rw [ih, min_eq_right hc.le]
      simp only [hcap]
      have h1 : p.max_backoff ≤ max (p.max_backoff * 2) p.initial_backoff :=
        le_trans (by linarith) (le_max_left _ _)
      have h2 : p.max_backoff ≤ p.initial_backoff * 2 ^ (k + 1) := by
        have he : p.initial_backoff * 2 ^ (k + 1) = p.initial_backoff * 2 ^ k * 2 := by ring
        rw [he]; nlinarith
      rw [min_eq_right h1, min_self, min_eq_right h2]

/-- C6: after each failed connect attempt the supervisor sleeps for exactly
`min(delay, maxBackoff) + min(delay, maxBackoff) * jitter * rand()`, and the
delay update (double the capped delay, floor at the initial backoff, cap at
the max backoff) makes the sleep durations of a run of consecutive failures
with `jitter = 0` equal to `min(initialBackoff * 2^k, maxBackoff)` for
`k = 0, 1, 2, …` (for a policy with non-negative backoff bounds). -/
theorem reconnect_backoff (p : ReconnectPolicy)
    (h0 : 0 ≤ p.initial_backoff) (hM : 0 ≤ p.max_backoff) (rand : Nat → ℚ) :
    (∀ delay r, (reconnect_step p delay r).1 =
      min delay p.max_backoff + min delay p.max_backoff * p.jitter * r) ∧
    (p.jitter = 0 → ∀ k,
      reconnectSleep p rand k = min (p.initial_backoff * 2 ^ k) p.max_backoff) := by
  constructor
  · intro delay r
    rfl
  · intro hj k
    rw [reconnectSleep, reconnect_step]
    simp only [hj, mul_zero, zero_mul, add_zero]
    exact reconnect_capped_invariant p h0 hM rand k

theorem reconnect_backoff_witness :
    (0 : ℚ) ≤ 1 ∧ (0 : ℚ) ≤ 30 ∧
    reconnectSleep ⟨1, 30, 0⟩ (fun _ => 0) 3 = min ((1 : ℚ) * 2 ^ 3) 30 :=
  ⟨by norm_num, by norm_num,
   (reconnect_backoff ⟨1, 30, 0⟩ (by norm_num) (by norm_num) (fun _ => 0)).2 rfl 3⟩

theorem build_deltas_self (x : EnvySnapshot) : build_deltas x x = [] := by
  simp [build_deltas, snapFieldDefs]

theorem build_events_self (x : EnvySnapshot) : build_events x x = [] := by
  simp [build_events, counter_event, change_event]

/-- C10: `snapshot_from_state` projects temperatures onto the four named
sensors only, so two states that differ only in the `extra` component of
their temperatures produce equal snapshots, and `EnvyStateAdapter.update`
reports no delta and no event for such a change. -/
theorem snapshot_ignores_extra_temperatures (s : EnvyState)
    (t : TemperaturesMessage) (e : List Int) :
    snapshot_from_state { s with temperatures := some { t with extra := e } } =
      snapshot_from_state { s with temperatures := some t } ∧
    adapterUpdate (some (snapshot_from_state { s with temperatures := some t }))
        { s with temperatures := some { t with extra := e } } =
      (snapshot_from_state { s with temperatures := some t },
       [], [],
       some (snapshot_from_state { s with temperatures := some t })) := by
  have hsnap : snapshot_from_state { s with temperatures := some { t with extra := e } } =
      snapshot_from_state { s with temperatures := some t } := rfl
  refine ⟨hsnap, ?_⟩
  rw [adapterUpdate, hsnap, build_deltas_self, build_events_self]

theorem counter_event_some_eq (k : Str) (a b : Int) (e : AdapterEvent) :
    some e = counter_event k a b ↔
      a < b ∧ e = ⟨k, [("count".data, .intV b), ("increment".data, .intV (b - a))]⟩ := by
  rw [counter_event]
  split
  · rename_i hle
    simp only [reduceCtorEq, false_iff, not_and]
    intro hlt
    omega
  · rename_i hgt
    have hlt : a < b := not_le.mp hgt
    simp [hlt, eq_comm]

theorem change_event_some_eq (k : Str) (o n : PyVal) (key : Str) (e : AdapterEvent) :
    some e = change_event k o n key ↔
      (¬(n = .noneV ∨ n = o)) ∧ e = ⟨k, [(key, n)]⟩ := by
  rw [change_event]
  split
  · rename_i hc
    simp [hc]
  · rename_i hc
    constructor
    · intro h
      exact ⟨hc, Option.some.inj h⟩
    · rintro ⟨-, rfl⟩
      rfl

theorem mem_build_events (p c : EnvySnapshot) (e : AdapterEvent) :
    e ∈ build_events p c ↔
      (some e = counter_event "temporary_reset".data
         p.temporary_reset_count c.temporary_reset_count ∨
       some e = counter_event "display_changed".data
         p.display_changed_count c.display_changed_count ∨
       some e = counter_event "settings_uploaded".data
         p.settings_upload_count c.settings_upload_count ∨
       some e = change_event "system_action".data
         (optV .strV p.last_system_action) (optV .strV c.last_system_action) "action".data ∨
       some e = change_event "button".data
         (optV .pairV p.last_button_event) (optV .pairV c.last_button_event) "button".data ∨
       some e = change_event "option_inherited".data
         (optV .strV p.last_inherit_option_path)
         (optV .strV c.last_inherit_option_path) "path".data ∨
       some e = change_event "lut_uploaded".data
         (optV .strV p.last_uploaded_3dlut) (optV .strV c.last_uploaded_3dlut) "filename".data ∨
       some e = change_event "lut_renamed".data
         (optV .pairV p.last_renamed_3dlut) (optV .pairV c.last_renamed_3dlut) "rename".data ∨
       some e = change_event "lut_deleted".data
         (optV .strV p.last_deleted_3dlut) (optV .strV c.last_deleted_3dlut) "filename".data ∨
       some e = change_event "settings_stored".data
         (optV .pairV p.last_store_settings) (optV .pairV c.last_store_settings) "store".data ∨
       some e = change_event "settings_restored".data
         (optV .strV p.last_restore_settings)
         (optV .strV c.last_restore_settings) "target".data) := by
  simp [build_events, List.mem_filterMap]

/-- The kinds of the eight change events. -/
def changeKinds : List Str :=
  ["system_action".data, "button".data, "option_inherited".data, "lut_uploaded".data,
   "lut_renamed".data, "lut_deleted".data, "settings_stored".data, "settings_restored".data]

theorem build_events_kind_inv (p c : EnvySnapshot) (ev : AdapterEvent)
    (hm : ev ∈ build_events p c) :
    (ev = ⟨"temporary_reset".data,
       [("count".data, .intV c.temporary_reset_count),
        ("increment".data, .intV (c.temporary_reset_count - p.temporary_reset_count))]⟩ ∧
      p.temporary_reset_count < c.temporary_reset_count) ∨
    (ev = ⟨"display_changed".data,
       [("count".data, .intV c.display_changed_count),
        ("increment".data, .intV (c.display_changed_count - p.display_changed_count))]⟩ ∧
      p.display_changed_count < c.display_changed_count) ∨
    (ev = ⟨"settings_uploaded".data,
       [("count".data, .intV c.settings_upload_count),
        ("increment".data, .intV (c.settings_upload_count - p.settings_upload_count))]⟩ ∧
      p.settings_upload_count < c.settings_upload_count) ∨
    ev.kind ∈ changeKinds := by
  rw [mem_build_events] at hm
  rcases hm with h | h | h | h | h | h | h | h | h | h | h
  · rw [counter_event_some_eq] at h
    exact Or.inl ⟨h.2, h.1⟩
  · rw [counter_event_some_eq] at h
    exact Or.inr (Or.inl ⟨h.2, h.1⟩)
  · rw [counter_event_some_eq] at h
    exact Or.inr (Or.inr (Or.inl ⟨h.2, h.1⟩))
  all_goals
    rw [change_event_some_eq] at h
  all_goals
    refine Or.inr (Or.inr (Or.inr ?_))
  all_goals
    rw [h.2]
  all_goals
    simp [changeKinds]

theorem kind_of_eq {ev : AdapterEvent} {k : Str} {pl : List (Str × PyVal)}
    (he : ev = ⟨k, pl⟩) : ev.kind = k := by
  rw [he]

/-- C4: between two successive snapshots the adapter emits each counter
event (`temporary_reset`, `display_changed`, `settings_uploaded`) exactly
when the corresponding counter strictly increased (never on an unchanged,
decreased or reset counter), and an emitted event carries the new count and
the increment in its payload. -/
theorem counter_events_fire_iff (p c : EnvySnapshot) :
    ((∃ ev ∈ build_events p c, ev.kind = "temporary_reset".data) ↔
      p.temporary_reset_count < c.temporary_reset_count) ∧
    (∀ ev ∈ build_events p c, ev.kind = "temporary_reset".data →
      ev.payload = [("count".data, .intV c.temporary_reset_count),
        ("increment".data, .intV (c.temporary_reset_count - p.temporary_reset_count))]) ∧
    ((∃ ev ∈ build_events p c, ev.kind = "display_changed".data) ↔
      p.display_changed_count < c.display_changed_count) ∧
    (∀ ev ∈ build_events p c, ev.kind = "display_changed".data →
      ev.payload = [("count".data, .intV c.display_changed_count),
        ("increment".data, .intV (c.display_changed_count - p.display_changed_count))]) ∧
    ((∃ ev ∈ build_events p c, ev.kind = "settings_uploaded".data) ↔
      p.settings_upload_count < c.settings_upload_count) ∧
    (∀ ev ∈ build_events p c, ev.kind = "settings_uploaded".data →
      ev.payload = [("count".data, .intV c.settings_upload_count),
        ("increment".data, .intV (c.settings_upload_count - p.settings_upload_count))]) := by
  refine ⟨⟨?_, ?_⟩, ?_, ⟨?_, ?_⟩, ?_, ⟨?_, ?_⟩, ?_⟩
  · rintro ⟨ev, hm, hk⟩
    rcases build_events_kind_inv p c ev hm with ⟨he, hlt⟩ | ⟨he, hlt⟩ | ⟨he, hlt⟩ | h8
    · exact hlt
    · exact absurd ((kind_of_eq he).symm.trans hk) (by decide)
    · exact absurd ((kind_of_eq he).symm.trans hk) (by decide)
    · exact absurd (hk ▸ h8) (by decide)
  · intro hlt
    refine ⟨⟨"temporary_reset".data,
      [("count".data, .intV c.temporary_reset_count),
       ("increment".data, .intV (c.temporary_reset_count - p.temporary_reset_count))]⟩, ?_, rfl⟩
    rw [mem_build_events]
    exact Or.inl ((counter_event_some_eq _ _ _ _).mpr ⟨hlt, rfl⟩)
  · intro ev hm hk
    rcases build_events_kind_inv p c ev hm with ⟨he, hlt⟩ | ⟨he, hlt⟩ | ⟨he, hlt⟩ | h8
    · rw [he]
    · exact absurd ((kind_of_eq he).symm.trans hk) (by decide)
    · exact absurd ((kind_of_eq he).symm.trans hk) (by decide)
    · exact absurd (hk ▸ h8) (by decide)
  · rintro ⟨ev, hm, hk⟩
    rcases build_events_kind_inv p c ev hm with ⟨he, hlt⟩ | ⟨he, hlt⟩ | ⟨he, hlt⟩ | h8
    · exact absurd ((kind_of_eq he).symm.trans hk) (by decide)
    · exact hlt
    · exact absurd ((kind_of_eq he).symm.trans hk) (by decide)
    · exact absurd (hk ▸ h8) (by decide)
  · intro hlt
    refine ⟨⟨"display_changed".data,
      [("count".data, .intV c.display_changed_count),
       ("increment".data, .intV (c.display_changed_count - p.display_changed_count))]⟩, ?_, rfl⟩
    rw [mem_build_events]
    exact Or.inr (Or.inl ((counter_event_some_eq _ _ _ _).mpr ⟨hlt, rfl⟩))
  · intro ev hm hk
    rcases build_events_kind_inv p c ev hm with ⟨he, hlt⟩ | ⟨he, hlt⟩ | ⟨he, hlt⟩ | h8
    · exact absurd ((kind_of_eq he).symm.trans hk) (by decide)
    · rw [he]
    · exact absurd ((kind_of_eq he).symm.trans hk) (by decide)
    · exact absurd (hk ▸ h8) (by decide)
  · rintro ⟨ev, hm, hk⟩
    rcases build_events_kind_inv p c ev hm with ⟨he, hlt⟩ | ⟨he, hlt⟩ | ⟨he, hlt⟩ | h8
    · exact absurd ((kind_of_eq he).symm.trans hk) (by decide)
    · exact absurd ((kind_of_eq he).symm.trans hk) (by decide)
    · exact hlt
    · exact absurd (hk ▸ h8) (by decide)
  · intro hlt
    refine ⟨⟨"settings_uploaded".data,
      [("count".data, .intV c.settings_upload_count),
       ("increment".data, .intV (c.settings_upload_count - p.settings_upload_count))]⟩, ?_, rfl⟩
    rw [mem_build_events]
    exact Or.inr (Or.inr (Or.inl ((counter_event_some_eq _ _ _ _).mpr ⟨hlt, rfl⟩)))
  · intro ev hm hk
    rcases build_events_kind_inv p c ev hm with ⟨he, hlt⟩ | ⟨he, hlt⟩ | ⟨he, hlt⟩ | h8
    · exact absurd ((kind_of_eq he).symm.trans hk) (by decide)
    · exact absurd ((kind_of_eq he).symm.trans hk) (by decide)
    · rw [he]
    · exact absurd (hk ▸ h8) (by decide)

theorem counter_events_fire_iff_witness :
    (∃ ev ∈ build_events (snapshot_from_state {})
        (snapshot_from_state { temporary_reset_count := 1 }),
      ev.kind = "temporary_reset".data) ∧
    ¬(∃ ev ∈ build_events (snapshot_from_state { temporary_reset_count := 1 })
        (snapshot_from_state {}),
      ev.kind = "temporary_reset".data) :=
  ⟨(counter_events_fire_iff (snapshot_from_state {})
      (snapshot_from_state { temporary_reset_count := 1 })).1.mpr (by decide),
   fun h => absurd ((counter_events_fire_iff (snapshot_from_state { temporary_reset_count := 1 })
      (snapshot_from_state {})).1.mp h) (by decide)⟩

theorem tokensGo_cons_ne_nil (fuel : Nat) (c : Char) (rest : Str)
    (hc : isSpace c = false) : tokensGo (fuel + 1) (c :: rest) ≠ [] := by
  rw [tokensGo, hc]
  simp only [Bool.false_eq_true, if_false]
  split
  · split
    · simp
    · simp
  · simp

theorem dropWhile_head_false {p : Char → Bool} {l : Str} {c : Char} {r : Str}
    (h : l.dropWhile p = c :: r) : p c = false := by
  induction l with
  | nil => simp at h
  | cons a rest ih =>
    rw [List.dropWhile_cons] at h
    by_cases hp : p a
    · exact ih (by simpa [hp] using h)
    · rw [if_neg hp] at h
      cases h
      simpa using hp

theorem dropTrailing_isPrefix (l : Str) : dropTrailing l <+: l := by
  rw [dropTrailing]
  have h : l.reverse.dropWhile isSpace <:+ l.reverse := List.dropWhile_suffix isSpace
  have h2 := List.reverse_prefix.mpr h
  simpa using h2

theorem pyStrip_head_false {s : Str} {c : Char} {r : Str}
    (h : pyStrip s = c :: r) : isSpace c = false := by
  rw [pyStrip] at h
  obtain ⟨u, hu⟩ := dropTrailing_isPrefix (s.dropWhile isSpace)
  rw [h] at hu
  exact dropWhile_head_false hu.symm

theorem tokensOf_pyStrip_ne_nil (line : Str) (h : pyStrip line ≠ []) :
    tokensOf (pyStrip line) ≠ [] := by
  cases heq : pyStrip line with
  | nil => exact absurd heq h
  | cons c r =>
    rw [tokensOf]
    simp only [List.length_cons]
    exact tokensGo_cons_ne_nil r.length c r (pyStrip_head_false heq)

/-- C1: `parse_message` returns a `Message` for every input line and never
raises: the stripped line of a non-empty input always yields at least one
token (so the unguarded `tokens[0]` cannot fail), and every failure inside a
shape parser — wrong arity, failed integer parse, or the `ValueError` from
`float()` caught by the handler — produces an `Unknown` message. -/
theorem parse_total (line : Str) : (parse_message line).isSome = true := by
  rw [parse_message]
  by_cases h : pyStrip line = []
  · simp [h]
  · rw [if_neg h]
    cases heq : tokensOf (pyStrip line) with
    | nil => exact absurd heq (tokensOf_pyStrip_ne_nil line h)
    | cons hd tl => simp [heq]

theorem parseOpenMenu_unknown {tokens : List Str} {l r : Str}
    (h : parseOpenMenu tokens l = .unknown r) : r = l := by
  unfold parseOpenMenu at h
  repeat' split at h
  all_goals simp_all

theorem parseKey_unknown {tokens : List Str} {l r : Str}
    (h : parseKey tokens l = .unknown r) : r = l := by
  unfold parseKey at h
  repeat' split at h
  all_goals simp_all

theorem parseSetAspectRatioMode_unknown {tokens : List Str} {l r : Str}
    (h : parseSetAspectRatioMode tokens l = .unknown r) : r = l := by
  unfold parseSetAspectRatioMode at h
  repeat' split at h
  all_goals simp_all

theorem parseActivateProfile_unknown {tokens : List Str} {l r : Str}
    (h : parseActivateProfile tokens l = .unknown r) : r = l := by
  unfold parseActivateProfile at h
  repeat' split at h
  all_goals simp_all

theorem parseActiveProfile_unknown {tokens : List Str} {l r : Str}
    (h : parseActiveProfile tokens l = .unknown r) : r = l := by
  unfold parseActiveProfile at h
  repeat' split at h
  all_goals simp_all

theorem parseCreateProfileGroup_unknown {tokens : List Str} {l r : Str}
    (h : parseCreateProfileGroup tokens l = .unknown r) : r = l := by
  unfold parseCreateProfileGroup at h
  repeat' split at h
  all_goals simp_all

theorem parseRenameProfileGroup_unknown {tokens : List Str} {l r : Str}
    (h : parseRenameProfileGroup tokens l = .unknown r) : r = l := by
  unfold parseRenameProfileGroup at h
  repeat' split at h
  all_goals simp_all

theorem parseDeleteProfileGroup_unknown {tokens : List Str} {l r : Str}
    (h : parseDeleteProfileGroup tokens l = .unknown r) : r = l := by
  unfold parseDeleteProfileGroup at h
  repeat' split at h
  all_goals simp_all

theorem parseProfileChange_unknown {tokens : List Str} {l r : Str}
    (h : parseProfileChange tokens l = .unknown r) : r = l := by
  unfold parseProfileChange at h
  repeat' split at h
  all_goals simp_all

theorem parseProfilePageLink_unknown {tokens : List Str} {l r : Str}
    (h : parseProfilePageLink tokens l = .unknown r) : r = l := by
  unfold parseProfilePageLink at h
  repeat' split at h
  all_goals simp_all

theorem parseIncomingSignal_unknown {tokens : List Str} {l r : Str}
    (h : parseIncomingSignal tokens l = .unknown r) : r = l := by
  unfold parseIncomingSignal at h
  repeat' split at h
  all_goals simp_all

theorem parseOutgoingSignal_unknown {tokens : List Str} {l r : Str}
    (h : parseOutgoingSignal tokens l = .unknown r) : r = l := by
  unfold parseOutgoingSignal at h
  repeat' split at h
  all_goals simp_all

theorem parseTemperatures_unknown {tokens : List Str} {l r : Str}
    (h : parseTemperatures tokens l = .unknown r) : r = l := by
  unfold parseTemperatures at h
  repeat' split at h
  all_goals simp_all

theorem parseMac_unknown {tokens : List Str} {l r : Str}
    (h : parseMac tokens l = .unknown r) : r = l := by
  unfold parseMac at h
  repeat' split at h
  all_goals simp_all

theorem parseProfileGroup_unknown {tokens : List Str} {l r : Str}
    (h : parseProfileGroup tokens l = .unknown r) : r = l := by
  unfold parseProfileGroup at h
  repeat' split at h
  all_goals simp_all

theorem parseProfile_unknown {tokens : List Str} {l r : Str}
    (h : parseProfile tokens l = .unknown r) : r = l := by
  unfold parseProfile at h
  repeat' split at h
  all_goals simp_all

theorem parseSettingPage_unknown {tokens : List Str} {l r : Str}
    (h : parseSettingPage tokens l = .unknown r) : r = l := by
  unfold parseSettingPage at h
  repeat' split at h
  all_goals simp_all

theorem parseConfigPage_unknown {tokens : List Str} {l r : Str}
    (h : parseConfigPage tokens l = .unknown r) : r = l := by
  unfold parseConfigPage at h
  repeat' split at h
  all_goals simp_all

theorem parseOption_unknown {tokens : List Str} {l r : Str}
    (h : parseOption tokens l = .unknown r) : r = l := by
  unfold parseOption at h
  repeat' split at h
  all_goals simp_all

theorem parseChangeOption_unknown {tokens : List Str} {l r : Str}
    (h : parseChangeOption tokens l = .unknown r) : r = l := by
  unfold parseChangeOption at h
  repeat' split at h
  all_goals simp_all

theorem parseInheritOption_unknown {tokens : List Str} {l r : Str}
    (h : parseInheritOption tokens l = .unknown r) : r = l := by
  unfold parseInheritOption at h
  repeat' split at h
  all_goals simp_all

theorem parseUpload3DLUTFile_unknown {tokens : List Str} {l r : Str}
    (h : parseUpload3DLUTFile tokens l = .unknown r) : r = l := by
  unfold parseUpload3DLUTFile at h
  repeat' split at h
  all_goals simp_all

theorem parseRename3DLUTFile_unknown {tokens : List Str} {l r : Str}
    (h : parseRename3DLUTFile tokens l = .unknown r) : r = l := by
  unfold parseRename3DLUTFile at h
  repeat' split at h
  all_goals simp_all

theorem parseDelete3DLUTFile_unknown {tokens : List Str} {l r : Str}
    (h : parseDelete3DLUTFile tokens l = .unknown r) : r = l := by
  unfold parseDelete3DLUTFile at h
  repeat' split at h
  all_goals simp_all

theorem parseStoreSettings_unknown {tokens : List Str} {l r : Str}
    (h : parseStoreSettings tokens l = .unknown r) : r = l := by
  unfold parseStoreSettings at h
  repeat' split at h
  all_goals simp_all

theorem parseRestoreSettings_unknown {tokens : List Str} {l r : Str}
    (h : parseRestoreSettings tokens l = .unknown r) : r = l := by
  unfold parseRestoreSettings at h
  repeat' split at h
  all_goals simp_all

theorem parseWelcome_unknown {l r : Str}
    (h : parseWelcome l = .unknown r) : r = l := by
  unfold parseWelcome at h
  split at h
  · dsimp only at h
    split at h <;> simp_all
  · simp_all

theorem parseError_unknown {l r : Str}
    (h : parseError l = .unknown r) : r = l := by
  unfold parseError at h
  split at h
  · dsimp only at h
    split at h <;> simp_all
  · simp_all

theorem parseAspectRatio_unknown {tokens : List Str} {l r : Str}
    (h : parseAspectRatio tokens l = some (.unknown r)) : r = l := by
  unfold parseAspectRatio at h
  repeat' split at h
  all_goals simp_all

theorem parseMaskingRatio_unknown {tokens : List Str} {l r : Str}
    (h : parseMaskingRatio tokens l = some (.unknown r)) : r = l := by
  unfold parseMaskingRatio at h
  repeat' split at h
  all_goals simp_all


theorem dispatch5_unknown {head : Str} {tokens : List Str} {line r : Str}
    (h : dispatchMessage5 head tokens line = .unknown r) : r = line := by
  unfold dispatchMessage5 at h
  repeat' split at h
  all_goals simp_all

theorem dispatch4b_unknown {head : Str} {tokens : List Str} {normalized line r : Str}
    (h : dispatchMessage4b head tokens normalized line = .unknown r) :
    r = normalized ∨ r = line := by
  unfold dispatchMessage4b at h
  repeat' split at h
  all_goals first
    | exact Or.inl (parseUpload3DLUTFile_unknown h)
    | exact Or.inl (parseRename3DLUTFile_unknown h)
    | exact Or.inl (parseDelete3DLUTFile_unknown h)
    | exact Or.inl (parseStoreSettings_unknown h)
    | exact Or.inl (parseRestoreSettings_unknown h)
    | exact Or.inr (dispatch5_unknown h)
    | simp_all

theorem dispatch4_unknown {head : Str} {tokens : List Str} {normalized line r : Str}
    (h : dispatchMessage4 head tokens normalized line = .unknown r) :
    r = normalized ∨ r = line := by
  unfold dispatchMessage4 at h
  repeat' split at h
  all_goals first
    | exact Or.inl (parseProfileGroup_unknown h)
    | exact Or.inl (parseProfile_unknown h)
    | exact Or.inl (parseSettingPage_unknown h)
    | exact Or.inl (parseConfigPage_unknown h)
    | exact Or.inl (parseOption_unknown h)
    | exact Or.inl (parseChangeOption_unknown h)
    | exact Or.inl (parseInheritOption_unknown h)
    | exact dispatch4b_unknown h
    | simp_all

theorem dispatch3_unknown {head : Str} {tokens : List Str} {normalized line r : Str}
    (h : dispatchMessage3 head tokens normalized line = .unknown r) :
    r = normalized ∨ r = line := by
  unfold dispatchMessage3 at h
  repeat' split at h
  all_goals first
    | exact Or.inl (parseProfileChange_unknown h)
    | exact Or.inl (parseProfilePageLink_unknown h)
    | exact Or.inl (parseIncomingSignal_unknown h)
    | exact Or.inl (parseOutgoingSignal_unknown h)
    | exact Or.inl (parseTemperatures_unknown h)
    | exact Or.inl (parseMac_unknown h)
    | (subst h; exact Or.inl (parseAspectRatio_unknown (by assumption)))
    | (subst h; exact Or.inl (parseMaskingRatio_unknown (by assumption)))
    | exact Or.inr (Message.unknown.inj h).symm
    | exact dispatch4_unknown h
    | simp_all

theorem dispatch2_unknown {head : Str} {tokens : List Str} {normalized line r : Str}
    (h : dispatchMessage2 head tokens normalized line = .unknown r) :
    r = normalized ∨ r = line := by
  unfold dispatchMessage2 at h
  repeat' split at h
  all_goals first
    | exact Or.inl (parseKey_unknown h)
    | exact Or.inl (parseSetAspectRatioMode_unknown h)
    | exact Or.inl (parseActivateProfile_unknown h)
    | exact Or.inl (parseActiveProfile_unknown h)
    | exact Or.inl (parseCreateProfileGroup_unknown h)
    | exact Or.inl (parseRenameProfileGroup_unknown h)
    | exact Or.inl (parseDeleteProfileGroup_unknown h)
    | exact dispatch3_unknown h
    | simp_all

theorem dispatch_unknown {head : Str} {tokens : List Str} {normalized line r : Str}
    (h : dispatchMessage head tokens normalized line = .unknown r) :
    r = normalized ∨ r = line := by
  unfold dispatchMessage at h
  repeat' split at h
  all_goals first
    | exact Or.inl (parseWelcome_unknown h)
    | exact Or.inl (parseError_unknown h)
    | exact Or.inl (parseOpenMenu_unknown h)
    | exact dispatch2_unknown h
    | simp_all

/-- C9 (amended): when `parse_message` returns `Unknown`, the `raw` field is
the stripped line when a shape parser rejected the stripped line, and the
original line otherwise (empty input, unmatched verb, caught `ValueError`) —
so `raw` is always either the line verbatim or the line with its leading and
trailing whitespace removed. -/
theorem unknown_raw (line r : Str)
    (h : parse_message line = some (.unknown r)) :
    r = line ∨ r = pyStrip line := by
  rw [parse_message] at h
  by_cases hs : pyStrip line = []
  · rw [if_pos hs] at h
    exact Or.inl (Message.unknown.inj (Option.some.inj h)).symm
  · rw [if_neg hs] at h
    cases heq : tokensOf (pyStrip line) with
    | nil =>
      rw [heq] at h
      cases h
    | cons hd tl =>
      rw [heq] at h
      exact (dispatch_unknown (Option.some.inj h)).symm

theorem unknown_raw_counterexample :
    parse_message " OpenMenu".data = some (.unknown "OpenMenu".data) ∧
    "OpenMenu".data ≠ " OpenMenu".data :=
  ⟨rfl, by decide⟩

theorem unknown_raw_witness :
    "Bogus stuff".data = "Bogus stuff".data ∨ "Bogus stuff".data = pyStrip "Bogus stuff".data :=
  unknown_raw "Bogus stuff".data "Bogus stuff".data rfl

/-- C8 (amended): for a line whose stripped form starts with
`"WELCOME to Envy v"`, `parse_message` returns `Welcome` with the version
equal to the remainder after the literal exactly when that remainder is
non-empty and contains no whitespace (the regex tail `([^\s]+)$`); otherwise
it returns `Unknown` carrying the stripped line. -/
theorem welcome_parse (line : Str) (h : hasLead welcomeLead (pyStrip line)) :
    (((!((pyStrip line).drop 17).isEmpty &&
        ((pyStrip line).drop 17).all (fun c => !isSpace c)) = true) →
      parse_message line = some (.welcome ((pyStrip line).drop 17))) ∧
    (((!((pyStrip line).drop 17).isEmpty &&
        ((pyStrip line).drop 17).all (fun c => !isSpace c)) = false) →
      parse_message line = some (.unknown (pyStrip line))) := by
  have h17 : (pyStrip line).take 17 = welcomeLead := h
  have hne : pyStrip line ≠ [] := by
    intro hnil
    rw [hnil] at h17
    exact absurd h17 (by decide)
  have hparse : parse_message line =
      some (parseWelcome (pyStrip line)) := by
    rw [parse_message, if_neg hne]
    cases heq : tokensOf (pyStrip line) with
    | nil => exact absurd heq (tokensOf_pyStrip_ne_nil line hne)
    | cons hd tl =>
      show some (dispatchMessage hd (hd :: tl) (pyStrip line) line) = _
      rw [dispatchMessage, if_pos h]
  constructor
  · intro hc
    rw [hparse, parseWelcome, if_pos h17]
    dsimp only
    rw [hc]
    rfl
  · intro hc
    rw [hparse, parseWelcome, if_pos h17]
    dsimp only
    rw [hc]
    rfl

theorem welcome_parse_counterexample :
    hasLead welcomeLead (pyStrip "WELCOME to Envy v".data) ∧
    parse_message "WELCOME to Envy v".data ≠
      some (.welcome ((pyStrip "WELCOME to Envy v".data).drop 17)) ∧
    parse_message "WELCOME to Envy v".data =
      some (.unknown "WELCOME to Envy v".data) :=
  ⟨by decide, fun h => Message.noConfusion (Option.some.inj h), rfl⟩

theorem welcome_parse_witness :
    hasLead welcomeLead (pyStrip "WELCOME to Envy v1.1.3".data) ∧
    parse_message "WELCOME to Envy v1.1.3".data = some (.welcome "1.1.3".data) := by
  refine ⟨by decide, ?_⟩
  have hw := (welcome_parse "WELCOME to Envy v1.1.3".data (by decide)).1 (by decide)
  rw [show (pyStrip "WELCOME to Envy v1.1.3".data).drop 17 = "1.1.3".data from by decide] at hw
  exact hw
